import Mathlib

/-!
A shallow embedding of the core of the `build-size-diff` GitHub Action
(artifact lookup, safe archive extraction, directory scan totals, diff
metrics and numeric-input sanitization), together with theorems checking
the natural-language specification against it.

Conventions of the embedding:
* JavaScript numbers are modelled as `Rat` where real division occurs
  (measurement records, diff metrics, parsed inputs) and as `Nat` where the
  source only ever holds byte counts and list lengths (archive sizes,
  page/attempt counters).
* Fallible operations return `Except String _`; a thrown `Error` is
  `Except.error` carrying the message.  `null`/`undefined` is `Option.none`.
* Calls to the logging collaborator (`core.info` / `core.warning`) are
  modelled by an explicit list of `LogEntry` values returned next to the
  result.
* External collaborators (the remote artifact API, the filesystem, `adm-zip`,
  `parseFloat`) are parameters of the corresponding functions: a function
  receives the data those collaborators would produce and the embedding
  reproduces the source's control flow over that data.
-/

namespace BuildSizeDiff

/-- A log line emitted through `core.info` / `core.warning`. -/
inductive LogEntry where
  | info (msg : String)
  | warning (msg : String)
  deriving Repr, DecidableEq

/-- `const ARTIFACT_NAME = 'bundle-stats'` (artifact.ts). -/
def ARTIFACT_NAME : String := "bundle-stats"

/-- `const STATS_FILE = 'bundle-stats.json'` (artifact.ts). -/
def STATS_FILE : String := "bundle-stats.json"

/-- `const RETRY_COUNT = 3` (artifact.ts). -/
def RETRY_COUNT : Nat := 3

/-- `const RETRY_BASE_DELAY_MS = 1000` (artifact.ts). -/
def RETRY_BASE_DELAY_MS : Nat := 1000

/-- `const MAX_ARTIFACT_SIZE_MB = 50` (artifact.ts). -/
def MAX_ARTIFACT_SIZE_MB : Nat := 50

/-- `const MAX_ARTIFACT_UNZIPPED_MB = 200` (artifact.ts). -/
def MAX_ARTIFACT_UNZIPPED_MB : Nat := 200

/-- `MAX_ARTIFACT_SIZE_MB * 1024 * 1024` (artifact.ts line 318). -/
def maxArtifactBytes : Nat := MAX_ARTIFACT_SIZE_MB * 1024 * 1024

/-- `MAX_ARTIFACT_UNZIPPED_MB * 1024 * 1024` (artifact.ts line 345). -/
def maxUnzippedBytes : Nat := MAX_ARTIFACT_UNZIPPED_MB * 1024 * 1024

/-! ## Retry policy (`retryOnFail`, artifact.ts lines 28-45)

The wrapped remote call `fn` is modelled by the sequence of outcomes of its
successive invocations: `outcomes i` is what the `i`-th attempt would return.
`RetryOutcome` records the final result, how many attempts were consumed and
the sleeps (in ms) performed between attempts. -/

structure RetryOutcome (T : Type) where
  result : Except String T
  attemptsUsed : Nat
  sleeps : List Nat
  deriving Repr

/-- The `for (let attempt = 0; attempt < RETRY_COUNT; attempt++)` loop of
`retryOnFail`.  The fuel argument starts at `RETRY_COUNT`, so the `0` case is
the `throw new Error('unreachable')` after the loop. -/
def retryGo {T : Type} (outcomes : Nat → Except String T) :
    Nat → Nat → List Nat → RetryOutcome T
  | 0, attempt, sleeps => ⟨.error "unreachable", attempt, sleeps⟩
  | fuel + 1, attempt, sleeps =>
    match outcomes attempt with
    | .ok v => ⟨.ok v, attempt + 1, sleeps⟩
    | .error e =>
      if attempt == RETRY_COUNT - 1 then ⟨.error e, attempt + 1, sleeps⟩
      else retryGo outcomes fuel (attempt + 1)
        (sleeps ++ [RETRY_BASE_DELAY_MS * 2 ^ attempt])

/-- `retryOnFail` (artifact.ts lines 28-45): run the call, and on failure wait
`RETRY_BASE_DELAY_MS * 2^attempt` ms and retry, up to `RETRY_COUNT` attempts;
the last attempt's error is rethrown. -/
def retryOnFail {T : Type} (outcomes : Nat → Except String T) : RetryOutcome T :=
  retryGo outcomes RETRY_COUNT 0 []

/-! ## Measurement records (types.ts) -/

/-- `FileStats` (types.ts): one measured output file.  Sizes are JavaScript
numbers, modelled as `Rat`. -/
structure FileStats where
  path : String
  name : String
  size : Rat
  gzip : Rat
  brotli : Rat
  deriving Repr, DecidableEq

/-- `BundleStats` (types.ts): the measurement record of one build. -/
structure BundleStats where
  files : List FileStats
  totalSize : Rat
  totalGzip : Rat
  totalBrotli : Rat
  timestamp : String
  commit : String
  deriving Repr, DecidableEq

/-! ## Directory scan (`scanDirectory`, scan.ts lines 8-74)

The filesystem walk and the compression measurer are external collaborators:
the walk's output is the list `walked` of files it pushed (each with
`gzip = 0`, `brotli = 0` initially), and `gzipSizeOf` / `brotliSizeOf` give
the compressed size the measurer computes for a file's path.  The bounded
worker pool assigns, for every file exactly once, `file.gzip` (when `useGzip`)
and `file.brotli` (when `useBrotli`); its final state is modelled by the map
below.  The totals are then recomputed by `reduce` over the final list. -/

/-- A file as pushed by the `walk` closure: `gzip`/`brotli` still `0`. -/
structure WalkedFile where
  path : String
  name : String
  size : Rat
  deriving Repr, DecidableEq

/-- `scanDirectory` (scan.ts lines 8-74), from the walk's output onward. -/
def scanDirectory (walked : List WalkedFile) (useGzip useBrotli : Bool)
    (gzipSizeOf brotliSizeOf : String → Rat)
    (timestamp commit : String) : BundleStats :=
  let files : List FileStats := walked.map fun f =>
    { path := f.path
      name := f.name
      size := f.size
      gzip := if useGzip then gzipSizeOf f.path else 0
      brotli := if useBrotli then brotliSizeOf f.path else 0 }
  { files := files
    totalSize := files.foldl (fun sum f => sum + f.size) 0
    totalGzip := files.foldl (fun sum f => sum + f.gzip) 0
    totalBrotli := files.foldl (fun sum f => sum + f.brotli) 0
    timestamp := timestamp
    commit := commit }

/-! ## Diff metrics (`calculateDiffMetrics`, comment.ts lines 149-174) -/

/-- `getChangeEmoji` (comment.ts lines 139-143). -/
def getChangeEmoji (value : Rat) : String :=
  if value > 0 then ":arrow_up_small:"
  else if value < 0 then ":arrow_down_small:"
  else ":white_circle:"

/-- `DiffMetrics` (comment.ts lines 127-137). -/
structure DiffMetrics where
  diffSize : Rat
  diffGzip : Rat
  diffBrotli : Rat
  diffPercentSize : Rat
  diffPercentGzip : Rat
  diffPercentBrotli : Rat
  sizeEmoji : String
  gzipEmoji : String
  brotliEmoji : String
  deriving Repr, DecidableEq

/-- `calculateDiffMetrics` (comment.ts lines 149-174). -/
def calculateDiffMetrics (current baseline : BundleStats) : DiffMetrics :=
  let diffSize := current.totalSize - baseline.totalSize
  let diffGzip := current.totalGzip - baseline.totalGzip
  let diffBrotli := current.totalBrotli - baseline.totalBrotli
  { diffSize := diffSize
    diffGzip := diffGzip
    diffBrotli := diffBrotli
    diffPercentSize :=
      if baseline.totalSize > 0 then diffSize / baseline.totalSize * 100 else 0
    diffPercentGzip :=
      if baseline.totalGzip > 0 then diffGzip / baseline.totalGzip * 100 else 0
    diffPercentBrotli :=
      if baseline.totalBrotli > 0 then diffBrotli / baseline.totalBrotli * 100
      else 0
    sizeEmoji := getChangeEmoji diffSize
    gzipEmoji := getChangeEmoji diffGzip
    brotliEmoji := getChangeEmoji diffBrotli }

/-! ## Numeric threshold inputs (index.ts lines 132-164)

`core.getInput` yields a string (empty when unset); `parseFloat` followed by
the `Number.isFinite` test is modelled by the parameter `parseFloatOf`, which
returns the finite value `parseFloat` would produce, or `none` when the
result is `NaN`/`±Infinity`. -/

/-- `readNumberInput` (index.ts lines 132-138). -/
def readNumberInput (value : String) (parseFloatOf : String → Option Rat)
    (errorMessage : String) : Except String (Option Rat) :=
  if value == "" then .ok none
  else
    match parseFloatOf value with
    | none => .error errorMessage
    | some parsed => .ok (some parsed)

/-- `sanitizeNonNegative` (index.ts lines 140-147). -/
def sanitizeNonNegative (value : Option Rat) (key : String) :
    Option Rat × List LogEntry :=
  match value with
  | none => (none, [])
  | some v =>
    if v < 0 then (none, [.warning (key ++ " cannot be negative; ignoring.")])
    else (some v, [])

/-- The per-threshold pipeline of `readActionInputs` (index.ts lines 149-164):
`readNumberInput` then `sanitizeNonNegative` for one key. -/
def readThresholdInput (value : String) (parseFloatOf : String → Option Rat)
    (key errorMessage : String) :
    Except String (Option Rat × List LogEntry) :=
  match readNumberInput value parseFloatOf errorMessage with
  | .error e => .error e
  | .ok parsed => .ok (sanitizeNonNegative parsed key)

/-! ## Archive extraction (`downloadBaselineArtifact`, artifact.ts lines 287-392)

Filesystem paths are modelled as lists of path components.  `path.resolve`
over components folds `..` (drop the last component), `.` and empty
components into the base path; `target.startsWith(extractDir + path.sep)` is
component-wise: the extraction directory is a proper prefix of the target. -/

/-- `path.resolve(base, rel)` on component lists, for a relative `rel`. -/
def resolveComponents (base : List String) (rel : List String) : List String :=
  rel.foldl
    (fun acc c =>
      if c == ".." then acc.dropLast
      else if c == "." || c == "" then acc
      else acc ++ [c])
    base

/-- `target.startsWith(extractDir + path.sep)` (artifact.ts line 335). -/
def insideSandbox (extractDir target : List String) : Bool :=
  extractDir.isPrefixOf target && decide (extractDir.length < target.length)

/-- One entry of the downloaded zip archive, as `adm-zip` presents it:
its name (as path components), whether it is a directory, the size declared
in its local header (`entry.header?.size`, absent when the header lacks it),
the length of `entry.getData()`, and the result of `JSON.parse` on its data
(`none` = malformed; only relevant for the record file). -/
structure ZipEntry where
  entryName : List String
  isDirectory : Bool
  declaredSize : Option Nat
  dataSize : Nat
  parsed : Option BundleStats
  deriving Repr, DecidableEq

/-- `declaredSize ?? entryData.length` (artifact.ts line 358). -/
def entrySizeOf (e : ZipEntry) : Nat :=
  e.declaredSize.getD e.dataSize

/-- State threaded through the extraction loop: cumulative decompressed
bytes, the `(target, entry)` pairs written with `fs.writeFileSync`, the
entries whose `getData()` was called, and the warnings emitted. -/
structure ExtractState where
  unzippedBytes : Nat
  written : List (List String × ZipEntry)
  materialized : List ZipEntry
  warnings : List String
  deriving Repr, DecidableEq

/-- The state at the top of the extraction loop. -/
def initExtractState : ExtractState := ⟨0, [], [], []⟩

/-- `core.warning` text on the zip-bomb abort (artifact.ts lines 351-353). -/
def unzippedCeilingWarning : String :=
  "Artifact unzipped size exceeds " ++ toString MAX_ARTIFACT_UNZIPPED_MB ++
    " MB; aborting extraction."

/-- `core.warning` text when an entry escapes the sandbox (line 336). -/
def traversalWarning (entryName : List String) : String :=
  "Skipping path traversal: " ++ String.intercalate "/" entryName

/-- Outcome of the extraction loop: `aborted` models the early `return null`
on the unzipped-size ceiling, `done` the loop running to completion. -/
inductive ExtractResult where
  | aborted (st : ExtractState)
  | done (st : ExtractState)
  deriving Repr, DecidableEq

/-- The final loop state, whichever way the loop ended. -/
def ExtractResult.state : ExtractResult → ExtractState
  | .aborted st => st
  | .done st => st

/-- The `for (const entry of entries)` loop of `downloadBaselineArtifact`
(artifact.ts lines 333-369). -/
def extractEntries (extractDir : List String) :
    List ZipEntry → ExtractState → ExtractResult
  | [], st => .done st
  | e :: rest, st =>
    let target := resolveComponents extractDir e.entryName
    if !insideSandbox extractDir target then
      extractEntries extractDir rest
        { st with warnings := st.warnings ++ [traversalWarning e.entryName] }
    else if e.isDirectory then
      extractEntries extractDir rest st
    else
      match e.declaredSize with
      | some declared =>
        if st.unzippedBytes + declared > maxUnzippedBytes then
          .aborted { st with warnings := st.warnings ++ [unzippedCeilingWarning] }
        else
          extractEntries extractDir rest
            { st with
              unzippedBytes := st.unzippedBytes + declared
              written := st.written ++ [(target, e)]
              materialized := st.materialized ++ [e] }
      | none =>
        if st.unzippedBytes + e.dataSize > maxUnzippedBytes then
          .aborted
            { st with
              materialized := st.materialized ++ [e]
              warnings := st.warnings ++ [unzippedCeilingWarning] }
        else
          extractEntries extractDir rest
            { st with
              unzippedBytes := st.unzippedBytes + e.dataSize
              written := st.written ++ [(target, e)]
              materialized := st.materialized ++ [e] }

/-- The downloaded archive, as the retried `downloadArtifact` call plus
`adm-zip` expose it: the byte length of the response buffer, whether opening
the zip threw (`some message`), and its entries. -/
structure ArtifactArchive where
  bufferLen : Nat
  zipFailure : Option String
  entries : List ZipEntry
  deriving Repr, DecidableEq

/-- `Math.round(x)` for JavaScript: round half toward positive infinity. -/
def jsRound (q : Rat) : Int := (q + 1 / 2).floor

/-- The message of the `Error` thrown on an oversized download
(artifact.ts lines 319-323). -/
def oversizeMessage (bufferLen : Nat) : String :=
  "Artifact is too large (" ++
    toString (jsRound ((bufferLen : Rat) / 1024 / 1024)) ++ " MB)"

/-- Stand-in for the engine-specific `SyntaxError` message `JSON.parse`
throws on malformed record-file content (artifact.ts line 385). -/
def jsonParseErrorMessage : String := "Unexpected token in JSON"

/-- `path.join(extractDir, STATS_FILE)` (artifact.ts line 377). -/
def statsPath (extractDir : List String) : List String :=
  extractDir ++ [STATS_FILE]

/-- Result and logs of one `downloadBaselineArtifact` call. -/
structure DownloadOutcome where
  result : Except String (Option BundleStats)
  logs : List LogEntry
  deriving Repr

/-- `downloadBaselineArtifact` (artifact.ts lines 287-392).  `dl` is the
outcome of the retried `downloadArtifact` remote call; an exhausted retry
propagates its error.  After extraction the record file exists iff some
entry was written at `statsPath` (the last write wins), and `JSON.parse`
failure is a thrown error. -/
def downloadBaselineArtifact (tempDir : List String) (source : String)
    (dl : Except String ArtifactArchive) : DownloadOutcome :=
  match dl with
  | .error e => ⟨.error e, []⟩
  | .ok arch =>
    let extractDir := tempDir ++ ["baseline-extracted"]
    if arch.bufferLen == 0 then
      ⟨.ok none, [.warning "Downloaded artifact is empty"]⟩
    else if maxArtifactBytes < arch.bufferLen then
      ⟨.error (oversizeMessage arch.bufferLen), []⟩
    else
      match arch.zipFailure with
      | some msg =>
        ⟨.ok none, [.warning ("Failed to extract artifact zip: " ++ msg)]⟩
      | none =>
        match extractEntries extractDir arch.entries initExtractState with
        | .aborted st => ⟨.ok none, st.warnings.map LogEntry.warning⟩
        | .done st =>
          match
            (st.written.filter
              (fun p => p.1 == statsPath extractDir)).getLast? with
          | none =>
            ⟨.ok none,
              st.warnings.map LogEntry.warning ++
                [.warning "bundle-stats.json not found in artifact"]⟩
          | some (_, entry) =>
            match entry.parsed with
            | none => ⟨.error jsonParseErrorMessage,
                st.warnings.map LogEntry.warning⟩
            | some stats =>
              let gz := toString stats.totalGzip
              let shortCommit := stats.commit.take 7
              ⟨.ok (some stats),
                st.warnings.map LogEntry.warning ++
                  [.info ("Baseline loaded (" ++ source ++ "): " ++ gz ++
                    " bytes gzip from commit " ++ shortCommit)]⟩

/-! ## Remote artifact lookup (artifact.ts lines 15-22 and 78-230) -/

/-- `ArtifactItem` (artifact.ts lines 15-22): `expired?` is `false` when the
field is absent, `head_branch` is `none` when `workflow_run` is absent or
`head_branch` is null/absent. -/
structure ArtifactItem where
  id : Nat
  name : String
  expired : Bool
  head_branch : Option String
  deriving Repr, DecidableEq

/-- One workflow run as `listWorkflowRuns` returns it (recency order), with
the artifacts `listWorkflowRunArtifacts` lists for it. -/
structure WorkflowRun where
  id : Nat
  artifacts : List ArtifactItem
  deriving Repr, DecidableEq

/-- `item.name === ARTIFACT_NAME && !item.expired` (artifact.ts line 219). -/
def artifactMatch (item : ArtifactItem) : Bool :=
  item.name == ARTIFACT_NAME && !item.expired

/-- The inner `for (const item of artifacts)` loop (lines 218-225). -/
def findInArtifacts : List ArtifactItem → Option ArtifactItem
  | [] => none
  | item :: rest =>
    if artifactMatch item then some item else findInArtifacts rest

/-- The `for (const run of workflowRuns)` loop (lines 206-226). -/
def findInRuns : List WorkflowRun → Option ArtifactItem
  | [] => none
  | run :: rest =>
    match findInArtifacts run.artifacts with
    | some item => some item
    | none => findInRuns rest

/-- The `for (const branch of branches)` loop (lines 191-227).  The source's
`if (workflowRuns.length === 0) continue` is the empty-list case of
`findInRuns`. -/
def findAcrossBranches (runsOf : String → List WorkflowRun) :
    List String → Option ArtifactItem
  | [] => none
  | branch :: rest =>
    match findInRuns (runsOf branch) with
    | some item => some item
    | none => findAcrossBranches runsOf rest

/-- `findBaselineArtifactFromWorkflowRuns` (artifact.ts lines 182-230).
`workflowId` is `resolveWorkflowId`'s outcome; `runsOf` gives, per branch,
the runs the remote API lists (bounded page, recency order). -/
def findBaselineArtifactFromWorkflowRuns (workflowId : Option Nat)
    (runsOf : String → List WorkflowRun) (branches : List String) :
    Option ArtifactItem :=
  match workflowId with
  | none => none
  | some _ => findAcrossBranches runsOf branches

/-! ## Repository-wide paginated scan (`fetchBaselineArtifact`,
artifact.ts lines 78-180) -/

/-- The per-item test of the pagination loop (lines 134-141): name equals
`ARTIFACT_NAME`, not expired, and a truthy `head_branch` contained in the
candidate branch set (the empty string is falsy in JavaScript). -/
def repoScanMatch (branches : List String) (item : ArtifactItem) : Bool :=
  item.name == ARTIFACT_NAME && !item.expired &&
    (match item.head_branch with
     | some b => !(b == "") && branches.contains b
     | none => false)

/-- How the pagination loop ended. -/
inductive ScanOutcome where
  | found (item : ArtifactItem) (pageCount totalChecked : Nat)
  | budgetExhausted (pageCount totalChecked : Nat)
  | exhausted (pageCount totalChecked : Nat)
  deriving Repr, DecidableEq

/-- The `for await (const response of octokit.paginate.iterator(...))` loop
(artifact.ts lines 122-159): count the page, scan it for the first match,
stop on a match, and abort once `pageCount >= maxPages`.  `pages` is the
sequence of pages the iterator would yield. -/
def repoScanGo (branches : List String) (maxPages : Nat) :
    List (List ArtifactItem) → Nat → Nat → ScanOutcome
  | [], pageCount, totalChecked => .exhausted pageCount totalChecked
  | page :: rest, pageCount, totalChecked =>
    let newPageCount := pageCount + 1
    let newTotal := totalChecked + page.length
    match page.find? (repoScanMatch branches) with
    | some item => .found item newPageCount newTotal
    | none =>
      if maxPages ≤ newPageCount then .budgetExhausted newPageCount newTotal
      else repoScanGo branches maxPages rest newPageCount newTotal

/-- `core.info` text opening the scan (artifact.ts lines 118-120). -/
def searchStartMessage (maxPages : Nat) : String :=
  let budget := maxPages * 100
  "Searching for baseline artifact (max " ++ toString maxPages ++
    " pages, " ++ toString budget ++ " artifacts)"

/-- `core.warning` text when the page budget is exhausted (lines 151-156). -/
def budgetWarningMessage (maxPages totalChecked : Nat)
    (branches : List String) : String :=
  let joined := String.intercalate ", " branches
  "Reached max artifact search limit (" ++ toString maxPages ++ " pages, " ++
    toString totalChecked ++ " artifacts checked). " ++
    "No baseline found for branches: " ++ joined ++ ". " ++
    "Increase max-artifact-pages if your baseline is older. " ++
    "Current repository has at least " ++ toString totalChecked ++
    " artifacts - consider reducing artifact retention."

/-- `core.info` text when a match is found (lines 144-146). -/
def scanFoundMessage (pageCount totalChecked : Nat) : String :=
  "Found baseline artifact after checking " ++ toString totalChecked ++
    " artifacts (" ++ toString pageCount ++ " pages)"

/-- `core.info` text when the iterator runs out of pages (lines 162-164). -/
def scanExhaustedMessage (pageCount totalChecked : Nat)
    (branches : List String) : String :=
  let joined := String.intercalate ", " branches
  "No baseline artifact found for " ++ joined ++ " after checking " ++
    toString totalChecked ++ " artifacts (" ++ toString pageCount ++ " pages)"

/-- The remote world one `fetchBaselineArtifact` call observes:
the temp directory, the outcome of `findBaselineArtifactFromWorkflowRuns`
(which may throw), the archive each artifact id downloads to (after the
bounded retry), and the pages the repo-wide artifact iterator yields. -/
structure FetchEnv where
  tempDir : List String
  workflowLookup : Except String (Option ArtifactItem)
  archives : Nat → Except String ArtifactArchive
  pages : List (List ArtifactItem)

/-- The repo-pagination half of `fetchBaselineArtifact` (artifact.ts lines
113-174), from `const branchSet = ...` to the final download. -/
def repoScanPhase (env : FetchEnv) (branches : List String) (maxPages : Nat) :
    Except String (Option BundleStats) × List LogEntry :=
  let startLog : LogEntry := .info (searchStartMessage maxPages)
  match repoScanGo branches maxPages env.pages 0 0 with
  | .found item pageCount totalChecked =>
    let dl := downloadBaselineArtifact env.tempDir "repo-pagination"
      (env.archives item.id)
    (dl.result,
      [startLog, .info (scanFoundMessage pageCount totalChecked)] ++ dl.logs)
  | .budgetExhausted _pageCount totalChecked =>
    (.ok none,
      [startLog, .warning (budgetWarningMessage maxPages totalChecked branches)])
  | .exhausted pageCount totalChecked =>
    (.ok none,
      [startLog,
        .info (scanExhaustedMessage pageCount totalChecked branches)])

/-- The body of `fetchBaselineArtifact`'s outer `try` block (artifact.ts
lines 86-174): targeted workflow-run lookup (its failure is swallowed with a
warning), download of its candidate, fall back to the repo scan when that
download yields nothing. -/
def fetchTry (env : FetchEnv) (branches : List String) (maxPages : Nat) :
    Except String (Option BundleStats) × List LogEntry :=
  let phase1 : Option ArtifactItem × List LogEntry :=
    match env.workflowLookup with
    | .ok found => (found, [])
    | .error m => (none, [.warning ("Workflow-run lookup failed: " ++ m)])
  match phase1 with
  | (some item, logs1) =>
    let dl := downloadBaselineArtifact env.tempDir "workflow-run"
      (env.archives item.id)
    match dl.result with
    | .error e => (.error e, logs1 ++ dl.logs)
    | .ok (some stats) => (.ok (some stats), logs1 ++ dl.logs)
    | .ok none =>
      let scan := repoScanPhase env branches maxPages
      (scan.1,
        logs1 ++ dl.logs ++
          [.warning
            "Workflow-run baseline download failed; falling back to repo search."] ++
          scan.2)
  | (none, logs1) =>
    let scan := repoScanPhase env branches maxPages
    (scan.1, logs1 ++ scan.2)

/-- `fetchBaselineArtifact` (artifact.ts lines 78-180): the outer
`try`/`catch` converts any thrown error into a warning plus a `null`
result. -/
def fetchBaselineArtifact (env : FetchEnv) (branches : List String)
    (maxPages : Nat := 10) : Option BundleStats × List LogEntry :=
  match fetchTry env branches maxPages with
  | (.ok found, logs) => (found, logs)
  | (.error e, logs) =>
    (none, logs ++ [.warning ("Failed to download baseline: " ++ e)])

/-- A concrete stand-in for `parseFloat` used to exercise the input pipeline:
parses exactly the strings "-5" and "x" is unparseable. -/
def demoParseFloat : String → Option Rat :=
  fun s => if s == "-5" then some (-5) else none

/-! ## Concrete data used to exercise the model -/

/-- The sandbox extraction directory for a `/tmp` temp root. -/
def sandboxDir : List String := ["tmp", "baseline-extracted"]

/-- A single entry whose declared size alone exceeds the unzipped ceiling. -/
def hugeEntry : ZipEntry :=
  { entryName := ["huge.bin"], isDirectory := false,
    declaredSize := some (maxUnzippedBytes + 1), dataSize := 0,
    parsed := none }

/-- A 150 MB entry; two of these together exceed the 200 MB ceiling. -/
def mediumEntry (n : String) : ZipEntry :=
  { entryName := [n], isDirectory := false,
    declaredSize := some 157286400, dataSize := 0, parsed := none }

/-- An entry whose name climbs out of the sandbox. -/
def traversalEntry : ZipEntry :=
  { entryName := ["..", "..", "etc", "passwd"], isDirectory := false,
    declaredSize := some 10, dataSize := 10, parsed := none }

/-- A small well-formed measurement record. -/
def demoRecord : BundleStats :=
  { files := [], totalSize := 1, totalGzip := 2, totalBrotli := 3,
    timestamp := "t", commit := "abcdef0123" }

/-- A record-file entry with well-formed JSON content. -/
def statsEntryGood : ZipEntry :=
  { entryName := [STATS_FILE], isDirectory := false, declaredSize := some 5,
    dataSize := 5, parsed := some demoRecord }

/-- A record-file entry with malformed JSON content. -/
def statsEntryBad : ZipEntry :=
  { entryName := [STATS_FILE], isDirectory := false, declaredSize := some 5,
    dataSize := 5, parsed := none }

/-- A download exceeding the 50 MB ceiling by one byte. -/
def oversizedArchive : ArtifactArchive :=
  { bufferLen := maxArtifactBytes + 1, zipFailure := none, entries := [] }

/-- A small archive whose record file is malformed. -/
def malformedArchive : ArtifactArchive :=
  { bufferLen := 10, zipFailure := none, entries := [statsEntryBad] }

/-- An empty download (`zipBuffer.length === 0`). -/
def emptyArchive : ArtifactArchive :=
  { bufferLen := 0, zipFailure := none, entries := [] }

/-- An archive holding the single over-the-ceiling entry. -/
def bombArchive : ArtifactArchive :=
  { bufferLen := 1000, zipFailure := none, entries := [hugeEntry] }

/-- A baseline artifact reference on branch `main`. -/
def wfItem : ArtifactItem :=
  { id := 7, name := ARTIFACT_NAME, expired := false,
    head_branch := some "main" }

/-- An artifact whose name does not match `ARTIFACT_NAME`. -/
def otherItem : ArtifactItem :=
  { id := 1, name := "other-artifact", expired := false,
    head_branch := some "main" }

/-- Environment: the targeted lookup finds an artifact whose download is
oversized. -/
def envOversize : FetchEnv :=
  { tempDir := ["tmp"], workflowLookup := .ok (some wfItem),
    archives := fun _ => .ok oversizedArchive, pages := [] }

/-- Environment: no targeted hit, one page of non-matching artifacts. -/
def envBudget : FetchEnv :=
  { tempDir := ["tmp"], workflowLookup := .ok none,
    archives := fun _ => .error "unused", pages := [[otherItem]] }

/-- Environment: the targeted lookup finds an artifact whose download turns
out empty, and the repo has no pages at all. -/
def envEmptyDownload : FetchEnv :=
  { tempDir := ["tmp"], workflowLookup := .ok (some wfItem),
    archives := fun _ => .ok emptyArchive, pages := [] }

/-! ## Theorems -/

/-- Helper: folding `+` over a projection equals the initial value plus the
sum of the projected list. -/
theorem foldl_add_proj {α : Type} (f : α → Rat) :
    ∀ (l : List α) (init : Rat),
      l.foldl (fun sum x => sum + f x) init = init + (l.map f).sum := by
  intro l
  induction l with
  | nil => intro init; simp
  | cons x xs ih =>
    intro init
    simp [List.foldl_cons, ih, List.sum_cons]
    ring

/-- C6: every wrapped remote call is retried at most `RETRY_COUNT = 3` times;
the sleeps between attempts form an exponential backoff starting at
`RETRY_BASE_DELAY_MS = 1000` ms and doubling each attempt; and when all
attempts fail, the error of the last attempt is the one propagated. -/
theorem retryOnFail_bounded_backoff {T : Type} (outcomes : Nat → Except String T) :
    (retryOnFail outcomes).attemptsUsed ≤ RETRY_COUNT ∧
    (retryOnFail outcomes).sleeps =
      (List.range ((retryOnFail outcomes).attemptsUsed - 1)).map
        (fun i => RETRY_BASE_DELAY_MS * 2 ^ i) ∧
    ((∀ i, i < RETRY_COUNT → ∃ e, outcomes i = .error e) →
      (retryOnFail outcomes).result = outcomes (RETRY_COUNT - 1)) := by
  rcases h0 : outcomes 0 with e0 | v0
  · rcases h1 : outcomes 1 with e1 | v1
    · rcases h2 : outcomes 2 with e2 | v2
      · refine ⟨?_, ?_, ?_⟩ <;>
          simp [retryOnFail, retryGo, RETRY_COUNT, RETRY_BASE_DELAY_MS,
            h0, h1, h2, List.range_succ]
      · refine ⟨?_, ?_, ?_⟩
        · simp [retryOnFail, retryGo, RETRY_COUNT, h0, h1, h2]
        · simp [retryOnFail, retryGo, RETRY_COUNT, RETRY_BASE_DELAY_MS,
            h0, h1, h2, List.range_succ]
        · intro hall
          obtain ⟨e, he⟩ := hall 2 (by norm_num [RETRY_COUNT])
          rw [h2] at he
          exact absurd he (by simp)
    · refine ⟨?_, ?_, ?_⟩
      · simp [retryOnFail, retryGo, RETRY_COUNT, h0, h1]
      · simp [retryOnFail, retryGo, RETRY_COUNT, RETRY_BASE_DELAY_MS,
          h0, h1, List.range_succ]
      · intro hall
        obtain ⟨e, he⟩ := hall 1 (by norm_num [RETRY_COUNT])
        rw [h1] at he
        exact absurd he (by simp)
  · refine ⟨?_, ?_, ?_⟩
    · simp [retryOnFail, retryGo, RETRY_COUNT, h0]
    · simp [retryOnFail, retryGo, RETRY_COUNT, h0]
    · intro hall
      obtain ⟨e, he⟩ := hall 0 (by norm_num [RETRY_COUNT])
      rw [h0] at he
      exact absurd he (by simp)

/-- Witness for `retryOnFail_bounded_backoff`, at a call whose three attempts
all fail. -/
theorem retryOnFail_bounded_backoff_witness :
    (∀ i, i < RETRY_COUNT →
      ∃ e, (fun j => (.error (toString j) : Except String Nat)) i = .error e) ∧
    (retryOnFail (fun j => (.error (toString j) : Except String Nat))).result =
      (fun j => (.error (toString j) : Except String Nat)) (RETRY_COUNT - 1) := by
  refine ⟨fun i _ => ⟨toString i, rfl⟩, ?_⟩
  exact (retryOnFail_bounded_backoff
    (fun j => (.error (toString j) : Except String Nat))).2.2
    (fun i _ => ⟨toString i, rfl⟩)

/-- C7: in every measurement record produced by the directory scan,
`totalSize`, `totalGzip` and `totalBrotli` each equal the sum of the
corresponding per-file field over `files`. -/
theorem scanDirectory_totals_are_sums (walked : List WalkedFile)
    (useGzip useBrotli : Bool) (gzipSizeOf brotliSizeOf : String → Rat)
    (timestamp commit : String) :
    let record := scanDirectory walked useGzip useBrotli gzipSizeOf
      brotliSizeOf timestamp commit
    record.totalSize = (record.files.map FileStats.size).sum ∧
    record.totalGzip = (record.files.map FileStats.gzip).sum ∧
    record.totalBrotli = (record.files.map FileStats.brotli).sum := by
  refine ⟨?_, ?_, ?_⟩ <;>
    simp [scanDirectory, foldl_add_proj]

/-- C8: each percentage-change field of the diff metrics equals
`delta / baselineTotal * 100` when the baseline's corresponding total is
positive, and equals `0` when that total is `0`. -/
theorem calculateDiffMetrics_percent_fields (current baseline : BundleStats) :
    (baseline.totalSize > 0 →
      (calculateDiffMetrics current baseline).diffPercentSize =
        (current.totalSize - baseline.totalSize) / baseline.totalSize * 100) ∧
    (baseline.totalSize = 0 →
      (calculateDiffMetrics current baseline).diffPercentSize = 0) ∧
    (baseline.totalGzip > 0 →
      (calculateDiffMetrics current baseline).diffPercentGzip =
        (current.totalGzip - baseline.totalGzip) / baseline.totalGzip * 100) ∧
    (baseline.totalGzip = 0 →
      (calculateDiffMetrics current baseline).diffPercentGzip = 0) ∧
    (baseline.totalBrotli > 0 →
      (calculateDiffMetrics current baseline).diffPercentBrotli =
        (current.totalBrotli - baseline.totalBrotli) / baseline.totalBrotli
          * 100) ∧
    (baseline.totalBrotli = 0 →
      (calculateDiffMetrics current baseline).diffPercentBrotli = 0) := by
  refine ⟨?_, ?_, ?_, ?_, ?_, ?_⟩ <;> intro h <;>
    simp [calculateDiffMetrics, h]

/-- Witness for `calculateDiffMetrics_percent_fields`: a baseline with
positive size total and zero gzip total. -/
theorem calculateDiffMetrics_percent_fields_witness :
    ((0 : Rat) < 200 ∧
      (calculateDiffMetrics
        { files := [], totalSize := 250, totalGzip := 40, totalBrotli := 30,
          timestamp := "t1", commit := "c1" }
        { files := [], totalSize := 200, totalGzip := 0, totalBrotli := 30,
          timestamp := "t0", commit := "c0" }).diffPercentSize =
        (250 - 200) / 200 * 100) ∧
    ((0 : Rat) = 0 ∧
      (calculateDiffMetrics
        { files := [], totalSize := 250, totalGzip := 40, totalBrotli := 30,
          timestamp := "t1", commit := "c1" }
        { files := [], totalSize := 200, totalGzip := 0, totalBrotli := 30,
          timestamp := "t0", commit := "c0" }).diffPercentGzip = 0) := by
  constructor
  · exact ⟨by norm_num,
      (calculateDiffMetrics_percent_fields
        { files := [], totalSize := 250, totalGzip := 40, totalBrotli := 30,
          timestamp := "t1", commit := "c1" }
        { files := [], totalSize := 200, totalGzip := 0, totalBrotli := 30,
          timestamp := "t0", commit := "c0" }).1 (by norm_num)⟩
  · exact ⟨rfl,
      (calculateDiffMetrics_percent_fields
        { files := [], totalSize := 250, totalGzip := 40, totalBrotli := 30,
          timestamp := "t1", commit := "c1" }
        { files := [], totalSize := 200, totalGzip := 0, totalBrotli := 30,
          timestamp := "t0", commit := "c0" }).2.2.2.1 rfl⟩

/-- C9: for each numeric threshold input, a value parsing to a negative
number is warned about and ignored (`none`), not fatal, while a non-empty
unparseable value is a fatal error. -/
theorem threshold_input_negative_warned_unparseable_fatal
    (value key errorMessage : String) (parseFloatOf : String → Option Rat) :
    (∀ q : Rat, value ≠ "" → parseFloatOf value = some q → q < 0 →
      readThresholdInput value parseFloatOf key errorMessage =
        .ok (none, [.warning (key ++ " cannot be negative; ignoring.")])) ∧
    (value ≠ "" → parseFloatOf value = none →
      readThresholdInput value parseFloatOf key errorMessage =
        .error errorMessage) := by
  constructor
  · intro q hne hparse hneg
    simp [readThresholdInput, readNumberInput, sanitizeNonNegative,
      beq_iff_eq, hne, hparse, hneg]
  · intro hne hparse
    simp [readThresholdInput, readNumberInput, beq_iff_eq, hne, hparse]

/-- Witness for `threshold_input_negative_warned_unparseable_fatal`: the
input "-5" is warned and ignored, the input "x" is fatal. -/
theorem threshold_input_policy_witness :
    readThresholdInput "-5" demoParseFloat "warn-above-kb" "warn-above-kb must be a number (e.g., 50)" =
      .ok (none, [.warning ("warn-above-kb" ++ " cannot be negative; ignoring.")]) ∧
    readThresholdInput "x" demoParseFloat "warn-above-kb" "warn-above-kb must be a number (e.g., 50)" =
      .error "warn-above-kb must be a number (e.g., 50)" := by
  constructor
  · exact (threshold_input_negative_warned_unparseable_fatal "-5"
      "warn-above-kb" "warn-above-kb must be a number (e.g., 50)"
      demoParseFloat).1 (-5) (by decide) (by decide) (by norm_num)
  · exact (threshold_input_negative_warned_unparseable_fatal "x"
      "warn-above-kb" "warn-above-kb must be a number (e.g., 50)"
      demoParseFloat).2 (by decide) (by decide)

/-- Helper: the inner artifact loop is `find?` on the artifact list. -/
theorem findInArtifacts_eq_find? (l : List ArtifactItem) :
    findInArtifacts l = l.find? artifactMatch := by
  induction l with
  | nil => rfl
  | cons item rest ih =>
    by_cases h : artifactMatch item
    · simp [findInArtifacts, h, List.find?_cons_of_pos]
    · simp [findInArtifacts, h, List.find?_cons_of_neg, ih]

/-- Helper: the run loop is `find?` on the runs' concatenated artifacts. -/
theorem findInRuns_eq_find? (runs : List WorkflowRun) :
    findInRuns runs = (runs.flatMap WorkflowRun.artifacts).find? artifactMatch := by
  induction runs with
  | nil => rfl
  | cons run rest ih =>
    rw [List.flatMap_cons, List.find?_append]
    rw [show findInRuns (run :: rest) =
      (match findInArtifacts run.artifacts with
       | some item => some item
       | none => findInRuns rest) from rfl]
    rw [findInArtifacts_eq_find?, ih]
    cases run.artifacts.find? artifactMatch <;> simp [Option.or]

/-- Helper: the branch loop is `find?` on the branch-ordered flattening. -/
theorem findAcrossBranches_eq_find? (runsOf : String → List WorkflowRun)
    (branches : List String) :
    findAcrossBranches runsOf branches =
      (branches.flatMap
        fun b => (runsOf b).flatMap WorkflowRun.artifacts).find? artifactMatch := by
  induction branches with
  | nil => rfl
  | cons b rest ih =>
    rw [List.flatMap_cons, List.find?_append]
    rw [show findAcrossBranches runsOf (b :: rest) =
      (match findInRuns (runsOf b) with
       | some item => some item
       | none => findAcrossBranches runsOf rest) from rfl]
    rw [findInRuns_eq_find?, ih]
    cases ((runsOf b).flatMap WorkflowRun.artifacts).find? artifactMatch <;>
      simp [Option.or]

/-- C5: with a resolved workflow id, the targeted lookup returns exactly the
first non-expired artifact named `ARTIFACT_NAME` in branch-priority order
(branches in their given order, each branch's runs in the order the API
lists them, each run's artifacts in order) — i.e. `find?` over that
flattened ordering, which pins the result down uniquely (in particular it is
not a largest-artifact or newest-across-branches choice). -/
theorem findBaseline_first_in_priority_order (wid : Nat)
    (runsOf : String → List WorkflowRun) (branches : List String) :
    findBaselineArtifactFromWorkflowRuns (some wid) runsOf branches =
      (branches.flatMap
        fun b => (runsOf b).flatMap WorkflowRun.artifacts).find?
          artifactMatch := by
  rw [show findBaselineArtifactFromWorkflowRuns (some wid) runsOf branches =
    findAcrossBranches runsOf branches from rfl]
  exact findAcrossBranches_eq_find? runsOf branches

set_option synthInstance.maxHeartbeats 1000000 in
/-- Helper: every path the extraction loop ever writes lies strictly inside
the sandbox directory, whichever way the loop ends. -/
theorem extract_written_inside (dir : List String) :
    ∀ (entries : List ZipEntry) (st : ExtractState),
      (∀ p ∈ st.written, insideSandbox dir p.1 = true) →
      ∀ p ∈ (extractEntries dir entries st).state.written,
        insideSandbox dir p.1 = true := by
  intro entries
  induction entries with
  | nil =>
    intro st h
    simpa [extractEntries, ExtractResult.state] using h
  | cons e rest ih =>
    intro st h
    by_cases hin : insideSandbox dir (resolveComponents dir e.entryName) = true
    · by_cases hdir : e.isDirectory = true
      · simpa [extractEntries, hin, hdir] using ih st h
      · rcases hdecl : e.declaredSize with _ | d
        · by_cases hover : st.unzippedBytes + e.dataSize > maxUnzippedBytes
          · simpa [extractEntries, hin, hdir, hdecl, hover,
              ExtractResult.state] using h
          · have hnext : ∀ p ∈ (st.written ++
                [(resolveComponents dir e.entryName, e)]),
                insideSandbox dir p.1 = true := by
              intro p hp
              rcases List.mem_append.mp hp with hp | hp
              · exact h p hp
              · simp only [List.mem_singleton] at hp
                subst hp
                exact hin
            simpa [extractEntries, hin, hdir, hdecl, hover] using
              ih _ hnext
        · by_cases hover : st.unzippedBytes + d > maxUnzippedBytes
          · simpa [extractEntries, hin, hdir, hdecl, hover,
              ExtractResult.state] using h
          · have hnext : ∀ p ∈ (st.written ++
                [(resolveComponents dir e.entryName, e)]),
                insideSandbox dir p.1 = true := by
              intro p hp
              rcases List.mem_append.mp hp with hp | hp
              · exact h p hp
              · simp only [List.mem_singleton] at hp
                subst hp
                exact hin
            simpa [extractEntries, hin, hdir, hdecl, hover] using
              ih _ hnext
    · have hin' : insideSandbox dir (resolveComponents dir e.entryName) = false :=
        Bool.not_eq_true _ ▸ (by simpa using hin)
      simpa [extractEntries, hin'] using
        ih { st with warnings := st.warnings ++ [traversalWarning e.entryName] }
          (by simpa using h)

/-- C3: an entry whose resolved target falls outside the sandbox extraction
directory is skipped with a warning and extraction continues with the
remaining entries; its target path is never among the written paths (no
written path ever leaves the sandbox). -/
theorem traversal_entry_skipped_never_written (dir : List String)
    (e : ZipEntry) (rest entries : List ZipEntry) (st : ExtractState)
    (h : insideSandbox dir (resolveComponents dir e.entryName) = false) :
    extractEntries dir (e :: rest) st =
      extractEntries dir rest
        { st with warnings := st.warnings ++ [traversalWarning e.entryName] } ∧
    resolveComponents dir e.entryName ∉
      ((extractEntries dir entries initExtractState).state.written.map
        Prod.fst) := by
  constructor
  · simp [extractEntries, h]
  · intro hmem
    obtain ⟨p, hp, hpe⟩ := List.mem_map.mp hmem
    have hinside := extract_written_inside dir entries initExtractState
      (by simp [initExtractState]) p hp
    rw [hpe, h] at hinside
    exact Bool.false_ne_true hinside

/-- Witness for `traversal_entry_skipped_never_written`: the entry
`../../etc/passwd` resolves outside `/tmp/baseline-extracted`, is skipped,
and its target is never written. -/
theorem traversal_entry_skipped_never_written_witness :
    (extractEntries sandboxDir (traversalEntry :: [statsEntryGood])
        initExtractState =
      extractEntries sandboxDir [statsEntryGood]
        { initExtractState with
          warnings := initExtractState.warnings ++
            [traversalWarning traversalEntry.entryName] }) ∧
    resolveComponents sandboxDir traversalEntry.entryName ∉
      ((extractEntries sandboxDir [traversalEntry, statsEntryGood]
        initExtractState).state.written.map Prod.fst) :=
  traversal_entry_skipped_never_written sandboxDir traversalEntry
    [statsEntryGood] [traversalEntry, statsEntryGood] initExtractState
    (by decide)

/-- Helper: if every entry stays inside the sandbox and none is a directory,
a cumulative decompressed size beyond the ceiling forces the extraction loop
to abort, starting from any state still under the ceiling. -/
theorem extract_cumulative_aborts (dir : List String) :
    ∀ (entries : List ZipEntry) (st : ExtractState),
      (∀ e ∈ entries,
        insideSandbox dir (resolveComponents dir e.entryName) = true ∧
          e.isDirectory = false) →
      st.unzippedBytes ≤ maxUnzippedBytes →
      maxUnzippedBytes < st.unzippedBytes + (entries.map entrySizeOf).sum →
      ∃ st', extractEntries dir entries st = .aborted st' := by
  intro entries
  induction entries with
  | nil =>
    intro st _ hle hover
    simp only [List.map_nil, List.sum_nil, Nat.add_zero] at hover
    omega
  | cons e rest ih =>
    intro st hall hle hover
    have he := hall e (List.mem_cons_self e rest)
    rcases hdecl : e.declaredSize with _ | d
    · by_cases habort : st.unzippedBytes + e.dataSize > maxUnzippedBytes
      · refine ⟨{ st with
          materialized := st.materialized ++ [e]
          warnings := st.warnings ++ [unzippedCeilingWarning] }, ?_⟩
        simp [extractEntries, he.1, he.2, hdecl, habort]
      · obtain ⟨st', hst'⟩ := ih
          { st with
            unzippedBytes := st.unzippedBytes + e.dataSize
            written := st.written ++ [(resolveComponents dir e.entryName, e)]
            materialized := st.materialized ++ [e] }
          (fun e' he' => hall e' (List.mem_cons_of_mem e he'))
          (by simpa using Nat.le_of_not_lt habort)
          (by
            simp only [List.map_cons, List.sum_cons] at hover
            simp only [entrySizeOf, hdecl, Option.getD_none] at hover
            simpa [entrySizeOf] using (by omega :
              maxUnzippedBytes < st.unzippedBytes + e.dataSize +
                (rest.map entrySizeOf).sum))
        refine ⟨st', ?_⟩
        simpa [extractEntries, he.1, he.2, hdecl, habort] using hst'
    · by_cases habort : st.unzippedBytes + d > maxUnzippedBytes
      · refine ⟨{ st with
          warnings := st.warnings ++ [unzippedCeilingWarning] }, ?_⟩
        simp [extractEntries, he.1, he.2, hdecl, habort]
      · obtain ⟨st', hst'⟩ := ih
          { st with
            unzippedBytes := st.unzippedBytes + d
            written := st.written ++ [(resolveComponents dir e.entryName, e)]
            materialized := st.materialized ++ [e] }
          (fun e' he' => hall e' (List.mem_cons_of_mem e he'))
          (by simpa using Nat.le_of_not_lt habort)
          (by
            simp only [List.map_cons, List.sum_cons] at hover
            simp only [entrySizeOf, hdecl, Option.getD_some] at hover
            simpa [entrySizeOf] using (by omega :
              maxUnzippedBytes < st.unzippedBytes + d +
                (rest.map entrySizeOf).sum))
        refine ⟨st', ?_⟩
        simpa [extractEntries, he.1, he.2, hdecl, habort] using hst'

/-- C2: (a) whenever the extraction loop aborts, the artifact load returns
not-found (`null`), never a partial record; (b) a cumulative decompressed
size beyond the 200 MB ceiling — one huge entry or many small ones — forces
an abort; (c) for an entry with a declared size, the ceiling is checked
before the entry is materialized: the abort happens with the entry absent
from the materialized pool. -/
theorem unzipped_ceiling_guard :
    (∀ (tempDir : List String) (source : String) (arch : ArtifactArchive)
        (st : ExtractState),
      0 < arch.bufferLen → arch.bufferLen ≤ maxArtifactBytes →
      arch.zipFailure = none →
      extractEntries (tempDir ++ ["baseline-extracted"]) arch.entries
        initExtractState = .aborted st →
      (downloadBaselineArtifact tempDir source (.ok arch)).result =
        .ok none) ∧
    (∀ (dir : List String) (entries : List ZipEntry),
      (∀ e ∈ entries,
        insideSandbox dir (resolveComponents dir e.entryName) = true ∧
          e.isDirectory = false) →
      maxUnzippedBytes < (entries.map entrySizeOf).sum →
      ∃ st', extractEntries dir entries initExtractState = .aborted st') ∧
    (∀ (dir : List String) (e : ZipEntry) (rest : List ZipEntry)
        (st : ExtractState) (d : Nat),
      insideSandbox dir (resolveComponents dir e.entryName) = true →
      e.isDirectory = false → e.declaredSize = some d →
      maxUnzippedBytes < st.unzippedBytes + d →
      extractEntries dir (e :: rest) st =
        .aborted
          { st with warnings := st.warnings ++ [unzippedCeilingWarning] } ∧
        ((extractEntries dir (e :: rest) st).state).materialized =
          st.materialized) := by
  refine ⟨?_, ?_, ?_⟩
  · intro tempDir source arch st h0 hle hzip habort
    have h0' : ¬(arch.bufferLen == 0) = true := by
      simp only [beq_iff_eq]
      omega
    have hle' : ¬maxArtifactBytes < arch.bufferLen := by omega
    simp [downloadBaselineArtifact, h0', hle', hzip, habort]
  · intro dir entries hall hover
    exact extract_cumulative_aborts dir entries initExtractState hall
      (by simp [initExtractState])
      (by simpa [initExtractState] using hover)
  · intro dir e rest st d hin hdir hdecl hover
    have hover' : st.unzippedBytes + d > maxUnzippedBytes := hover
    constructor
    · simp [extractEntries, hin, hdir, hdecl, hover']
    · simp [extractEntries, hin, hdir, hdecl, hover', ExtractResult.state]

/-- Witness for `unzipped_ceiling_guard`: a one-entry archive whose declared
size alone exceeds the ceiling yields a `null` load; two 150 MB entries sum
over the ceiling and abort; the huge entry's check precedes its
materialization. -/
theorem unzipped_ceiling_guard_witness :
    ((downloadBaselineArtifact ["tmp"] "workflow-run" (.ok bombArchive)).result =
      .ok none) ∧
    (∃ st', extractEntries sandboxDir [mediumEntry "a.js", mediumEntry "b.js"]
      initExtractState = .aborted st') ∧
    (extractEntries sandboxDir (hugeEntry :: []) initExtractState =
      .aborted
        { initExtractState with
          warnings := initExtractState.warnings ++ [unzippedCeilingWarning] } ∧
      ((extractEntries sandboxDir (hugeEntry :: [])
        initExtractState).state).materialized =
          initExtractState.materialized) := by
  refine ⟨?_, ?_, ?_⟩
  · exact unzipped_ceiling_guard.1 ["tmp"] "workflow-run" bombArchive
      { initExtractState with
        warnings := initExtractState.warnings ++ [unzippedCeilingWarning] }
      (by decide) (by decide) rfl (by decide)
  · exact unzipped_ceiling_guard.2.1 sandboxDir
      [mediumEntry "a.js", mediumEntry "b.js"] (by decide) (by decide)
  · exact unzipped_ceiling_guard.2.2 sandboxDir hugeEntry [] initExtractState
      (maxUnzippedBytes + 1) (by decide) rfl rfl (by decide)

/-- C1 counterexample: an oversized download (50 MB ceiling exceeded by one
byte) makes the artifact load throw, yet `fetchBaselineArtifact` — the
baseline fetch — catches that error and returns not-found (`null`) with a
warning: the error does not propagate out of the fetch and does not abort
the run. -/
theorem oversize_error_swallowed_by_fetch :
    (downloadBaselineArtifact ["tmp"] "workflow-run"
        (envOversize.archives 7)).result =
      .error (oversizeMessage (maxArtifactBytes + 1)) ∧
    fetchBaselineArtifact envOversize ["main"] 10 =
      (none,
        [.warning ("Failed to download baseline: " ++
          oversizeMessage (maxArtifactBytes + 1))]) := by
  constructor
  · rfl
  · rfl

/-- C1 (amended): an oversized download and malformed record-file content
are hard failures of the artifact load (`downloadBaselineArtifact`) — they
surface as thrown errors, never as a not-found result of the load — but the
enclosing `fetchBaselineArtifact` catches every such error and degrades it
to not-found (`null`) with a warning instead of aborting the run. -/
theorem hard_failures_confined_to_load :
    (∀ (tempDir : List String) (source : String) (arch : ArtifactArchive),
      maxArtifactBytes < arch.bufferLen →
      (downloadBaselineArtifact tempDir source (.ok arch)).result =
        .error (oversizeMessage arch.bufferLen)) ∧
    (∀ (tempDir : List String) (source : String) (arch : ArtifactArchive)
        (st : ExtractState) (target : List String) (entry : ZipEntry),
      0 < arch.bufferLen → arch.bufferLen ≤ maxArtifactBytes →
      arch.zipFailure = none →
      extractEntries (tempDir ++ ["baseline-extracted"]) arch.entries
        initExtractState = .done st →
      (st.written.filter
        (fun p => p.1 == statsPath (tempDir ++ ["baseline-extracted"]))).getLast? =
        some (target, entry) →
      entry.parsed = none →
      (downloadBaselineArtifact tempDir source (.ok arch)).result =
        .error jsonParseErrorMessage) ∧
    (∀ (env : FetchEnv) (branches : List String) (maxPages : Nat)
        (e : String) (logs : List LogEntry),
      fetchTry env branches maxPages = (.error e, logs) →
      fetchBaselineArtifact env branches maxPages =
        (none, logs ++ [.warning ("Failed to download baseline: " ++ e)])) := by
  refine ⟨?_, ?_, ?_⟩
  · intro tempDir source arch hbig
    have h0' : ¬(arch.bufferLen == 0) = true := by
      simp only [beq_iff_eq]
      omega
    simp [downloadBaselineArtifact, h0', hbig]
  · intro tempDir source arch st target entry h0 hle hzip hdone hlast hparse
    have h0' : ¬(arch.bufferLen == 0) = true := by
      simp only [beq_iff_eq]
      omega
    have hle' : ¬maxArtifactBytes < arch.bufferLen := by omega
    simp [downloadBaselineArtifact, h0', hle', hzip, hdone, hlast, hparse]
  · intro env branches maxPages e logs heq
    simp [fetchBaselineArtifact, heq]

/-- Witness for `hard_failures_confined_to_load`: the oversized archive and
the malformed-record archive make the load throw, and a fetch whose `try`
block throws returns `null` plus a warning. -/
theorem hard_failures_confined_to_load_witness :
    ((downloadBaselineArtifact ["tmp"] "workflow-run"
        (.ok oversizedArchive)).result =
      .error (oversizeMessage oversizedArchive.bufferLen)) ∧
    ((downloadBaselineArtifact ["tmp"] "repo-pagination"
        (.ok malformedArchive)).result = .error jsonParseErrorMessage) ∧
    (fetchBaselineArtifact envOversize ["main"] 10 =
      (none,
        ([] : List LogEntry) ++
          [.warning ("Failed to download baseline: " ++
            oversizeMessage (maxArtifactBytes + 1))])) := by
  refine ⟨?_, ?_, ?_⟩
  · exact hard_failures_confined_to_load.1 ["tmp"] "workflow-run"
      oversizedArchive (by decide)
  · exact hard_failures_confined_to_load.2.1 ["tmp"] "repo-pagination"
      malformedArchive
      { unzippedBytes := 5,
        written := [(sandboxDir ++ [STATS_FILE], statsEntryBad)],
        materialized := [statsEntryBad], warnings := [] }
      (sandboxDir ++ [STATS_FILE]) statsEntryBad
      (by decide) (by decide) rfl (by decide) (by decide) rfl
  · exact hard_failures_confined_to_load.2.2 envOversize ["main"] 10
      (oversizeMessage (maxArtifactBytes + 1)) [] rfl

/-- Helper: when no page among the next `maxPages - pageCount` holds a
match and the iterator has at least that many pages left, the pagination
loop stops at the budget with the counts accumulated so far. -/
theorem repoScanGo_budget (branches : List String) (maxPages : Nat) :
    ∀ (pages : List (List ArtifactItem)) (pageCount totalChecked : Nat),
      pageCount < maxPages →
      maxPages - pageCount ≤ pages.length →
      (∀ page ∈ pages.take (maxPages - pageCount),
        page.find? (repoScanMatch branches) = none) →
      repoScanGo branches maxPages pages pageCount totalChecked =
        .budgetExhausted maxPages
          (totalChecked +
            ((pages.take (maxPages - pageCount)).map List.length).sum) := by
  intro pages
  induction pages with
  | nil =>
    intro pageCount totalChecked hlt hlen _
    simp only [List.length_nil] at hlen
    omega
  | cons page rest ih =>
    intro pageCount totalChecked hlt hlen hnone
    have hk : maxPages - pageCount = (maxPages - (pageCount + 1)) + 1 := by
      omega
    rw [hk, List.take_succ_cons] at hnone
    have hfind : page.find? (repoScanMatch branches) = none :=
      hnone page (List.mem_cons_self page _)
    by_cases hstop : maxPages ≤ pageCount + 1
    · have hmax : pageCount + 1 = maxPages := by omega
      have hk0 : maxPages - (pageCount + 1) = 0 := by omega
      rw [hk, hk0, List.take_succ_cons]
      simp [repoScanGo, hfind, hstop, hmax]
    · have ih' := ih (pageCount + 1) (totalChecked + page.length)
        (by omega)
        (by simp only [List.length_cons] at hlen; omega)
        (fun p hp => hnone p (List.mem_cons_of_mem page hp))
      rw [hk, List.take_succ_cons]
      simp only [repoScanGo, hfind, hstop, if_false]
      rw [ih']
      simp only [List.map_cons, List.sum_cons]
      congr 1
      omega

/-- C4: when the repository-wide paginated scan examines `maxPages` pages
without a non-expired, name-matching artifact on a candidate branch (and the
targeted lookup yielded nothing), the lookup returns not-found (`null`)
together with the warning that reports how many pages and artifacts were
scanned and says to raise `max-artifact-pages`, and the `try` body finishes
without throwing. -/
theorem scan_budget_exhausted_not_found (env : FetchEnv)
    (branches : List String) (maxPages : Nat)
    (hwf : env.workflowLookup = .ok none)
    (h1 : 1 ≤ maxPages)
    (h2 : maxPages ≤ env.pages.length)
    (h3 : ∀ page ∈ env.pages.take maxPages,
      page.find? (repoScanMatch branches) = none) :
    fetchBaselineArtifact env branches maxPages =
      (none,
        [.info (searchStartMessage maxPages),
          .warning (budgetWarningMessage maxPages
            (((env.pages.take maxPages).map List.length).sum) branches)]) ∧
    (fetchTry env branches maxPages).1 = .ok none := by
  have hscan := repoScanGo_budget branches maxPages env.pages 0 0
    (by omega) (by simpa using h2) (by simpa using h3)
  simp only [Nat.sub_zero] at hscan
  have hphase : repoScanPhase env branches maxPages =
      (.ok none,
        [.info (searchStartMessage maxPages),
          .warning (budgetWarningMessage maxPages
            (((env.pages.take maxPages).map List.length).sum) branches)]) := by
    simp [repoScanPhase, hscan]
  have htry : fetchTry env branches maxPages =
      (.ok none,
        [.info (searchStartMessage maxPages),
          .warning (budgetWarningMessage maxPages
            (((env.pages.take maxPages).map List.length).sum) branches)]) := by
    simp [fetchTry, hwf, hphase]
  refine ⟨?_, ?_⟩
  · simp [fetchBaselineArtifact, htry]
  · simp [htry]

/-- Witness for `scan_budget_exhausted_not_found`: one page of one
non-matching artifact with a one-page budget. -/
theorem scan_budget_exhausted_not_found_witness :
    (fetchBaselineArtifact envBudget ["main"] 1 =
      (none,
        [.info (searchStartMessage 1),
          .warning (budgetWarningMessage 1
            (((envBudget.pages.take 1).map List.length).sum) ["main"])]) ∧
      (fetchTry envBudget ["main"] 1).1 = .ok none) :=
  scan_budget_exhausted_not_found envBudget ["main"] 1 rfl
    (by decide) (by decide) (by decide)

/-- C10: when the targeted workflow-run lookup produces a candidate artifact
but its download/load yields no record (`null`), the fetch does not give up:
it logs the fall-back warning and its outcome is exactly the outcome of the
repository-wide paginated scan phase. -/
theorem workflow_download_miss_falls_back_to_scan (env : FetchEnv)
    (branches : List String) (maxPages : Nat) (item : ArtifactItem)
    (h1 : env.workflowLookup = .ok (some item))
    (h2 : (downloadBaselineArtifact env.tempDir "workflow-run"
      (env.archives item.id)).result = .ok none) :
    fetchTry env branches maxPages =
      ((repoScanPhase env branches maxPages).1,
        (downloadBaselineArtifact env.tempDir "workflow-run"
          (env.archives item.id)).logs ++
          [.warning
            "Workflow-run baseline download failed; falling back to repo search."] ++
          (repoScanPhase env branches maxPages).2) := by
  simp [fetchTry, h1, h2]

/-- Witness for `workflow_download_miss_falls_back_to_scan`: an empty
download from the targeted candidate, with an empty repository scan. -/
theorem workflow_download_miss_falls_back_to_scan_witness :
    fetchTry envEmptyDownload ["main"] 10 =
      ((repoScanPhase envEmptyDownload ["main"] 10).1,
        (downloadBaselineArtifact envEmptyDownload.tempDir "workflow-run"
          (envEmptyDownload.archives wfItem.id)).logs ++
          [.warning
            "Workflow-run baseline download failed; falling back to repo search."] ++
          (repoScanPhase envEmptyDownload ["main"] 10).2) :=
  workflow_download_miss_falls_back_to_scan envEmptyDownload ["main"] 10
    wfItem rfl rfl

end BuildSizeDiff
